import Mathlib

/-!
Shallow embedding of the renderer-resolution and hydration core of the
repository (source: `src/unnamed/part_000`, the `__astro_component` module).

Conventions of the embedding:
* JS strings are Lean `String` (in this toolchain a wrapper around `List Char`).
* `props` values are opaque to the core (the code passes them through to the
  adapters and to the external `serialize` library), so they are a type
  parameter `π`; the external `estree-util-value-to-estree`/`astring`
  serializer and the external `shorthash.unique` function are passed in as
  function parameters.
* Thrown JS values from adapter `check` calls are a type parameter `ε`.
* An adapter's `check` and `renderToStaticMarkup` are modelled as pure
  functions stored in the instance record (`check` absorbs the `options`
  field that the source destructures and passes back to the adapter).
* The module-level mutable `rendererInstances` array and `rendererCache` map
  are an explicit `AstroState` threaded through the operations; every
  operation returns the new cache together with the number of adapter
  `check` invocations it performed, which instruments the loop for the
  counting claims without altering its observable behaviour.
-/

/-- A component value: JS passes `null`/`undefined`, a tag-name string, a
function (with `displayName`/`name` properties used by `getComponentName`),
or some other framework-internal object (`other` carries the string the JS
template-literal coercion would produce for it). -/
inductive ComponentValue
  | nullc
  | str (s : String)
  | func (displayName : Option String) (fname : String)
  | other (coerced : String)
deriving DecidableEq

/-- The `componentExport` field: `\x7b value: string; namespace?: boolean \x7d`. -/
structure ComponentExport where
  value : String
  isNamespace : Bool
deriving DecidableEq

/-- The three hydration modes of `AstroComponentProps.hydrate`. -/
inductive HydrateMode
  | load
  | idle
  | visible
deriving DecidableEq

/-- String form of a hydrate mode, as interpolated into the script path. -/
def HydrateMode.str : HydrateMode → String
  | .load => "load"
  | .idle => "idle"
  | .visible => "visible"

/-- Outcome of one adapter `check` call: it returns a boolean or throws. -/
inductive CheckResult (ε : Type)
  | ok (b : Bool)
  | err (e : ε)
deriving DecidableEq

/-- A `RendererInstance` record: `source`, the renderer's `check` and
`renderToStaticMarkup` behaviour (as pure functions of component, props and
children; `options` is absorbed into them), and `polyfills`. -/
structure RendererInstance (π ε : Type) where
  source : Option String
  check : ComponentValue → π → String → CheckResult ε
  renderHtml : ComponentValue → π → String → String
  polyfills : List String

/-- The `rendererCache : Map<any, RendererInstance>` as an association list
keyed by component identity, in insertion order. -/
def RendererCacheMap (π ε : Type) : Type := List (ComponentValue × RendererInstance π ε)

/-- `rendererCache.has`/`rendererCache.get` combined. -/
def cacheLookup {π ε : Type} : RendererCacheMap π ε → ComponentValue → Option (RendererInstance π ε)
  | [], _ => none
  | (k, v) :: rest, c => if k = c then some v else cacheLookup rest c

/-- `rendererCache.set`: replace the existing entry for the key in place, or
append a new entry (JS `Map` insertion-order semantics). -/
def cacheSet {π ε : Type} : RendererCacheMap π ε → ComponentValue → RendererInstance π ε → RendererCacheMap π ε
  | [], c, v => [(c, v)]
  | (k, w) :: rest, c, v => if k = c then (c, v) :: rest else (k, w) :: cacheSet rest c v

/-- The module-level mutable state: the `rendererInstances` array and the
`rendererCache` map. -/
structure AstroState (π ε : Type) where
  rendererInstances : List (RendererInstance π ε)
  rendererCache : RendererCacheMap π ε

/-- `setRenderers`: `rendererInstances = [astroRendererInstance].concat(list)`.
The self-referential astro instance is passed in (its module is imported from
outside this file's source). Note the source does NOT touch `rendererCache`. -/
def setRenderers {π ε : Type} (astroRendererInstance : RendererInstance π ε)
    (newInstances : List (RendererInstance π ε)) (st : AstroState π ε) : AstroState π ε :=
  { st with rendererInstances := astroRendererInstance :: newInstances }

/-- `isCustomElementTag`: a string component whose hyphen-test regex matches,
i.e. some character of the string is a hyphen; every non-string is false. -/
def isCustomElementTag : ComponentValue → Bool
  | .str s => s.data.contains '-'
  | _ => false

/-- Result of `resolveRenderer`: the returned instance, `undefined`, or a
thrown error. -/
inductive ResolveOutcome (π ε : Type)
  | found (inst : RendererInstance π ε)
  | noMatch
  | threw (e : ε)

/-- Instrumented result of `resolveRenderer`: outcome, the cache after the
call, and how many adapter `check` functions were invoked. -/
structure ResolveResult (π ε : Type) where
  outcome : ResolveOutcome π ε
  cache : RendererCacheMap π ε
  checks : Nat

/-- The `for (const instance of rendererInstances)` loop of `resolveRenderer`
with its `errors` accumulator: first `check` returning `true` wins; a thrown
error is pushed and the loop continues; after the loop, if any error was
collected the FIRST one is thrown, else the result is `undefined`.
Returns the outcome and the number of `check` invocations. -/
def resolveLoop {π ε : Type} (comp : ComponentValue) (props : π) (children : String) :
    List (RendererInstance π ε) → List ε → ResolveOutcome π ε × Nat
  | [], [] => (.noMatch, 0)
  | [], e :: _ => (.threw e, 0)
  | inst :: rest, errors =>
    match inst.check comp props children with
    | .ok true => (.found inst, 1)
    | .ok false =>
      let r := resolveLoop comp props children rest errors
      (r.1, r.2 + 1)
    | .err e =>
      let r := resolveLoop comp props children rest (errors ++ [e])
      (r.1, r.2 + 1)

/-- `resolveRenderer(Component, props, children)`: cache hit short-circuits
with no `check` calls; otherwise the registry is scanned sequentially and a
match is recorded in the cache. -/
def resolveRenderer {π ε : Type} (st : AstroState π ε) (comp : ComponentValue)
    (props : π) (children : String) : ResolveResult π ε :=
  match cacheLookup st.rendererCache comp with
  | some inst => ⟨.found inst, st.rendererCache, 0⟩
  | none =>
    let r := resolveLoop comp props children st.rendererInstances []
    match r.1 with
    | .found inst => ⟨.found inst, cacheSet st.rendererCache comp inst, r.2⟩
    | .noMatch => ⟨.noMatch, st.rendererCache, r.2⟩
    | .threw e => ⟨.threw e, st.rendererCache, r.2⟩

/-- `AstroComponentProps`; all fields may be absent at runtime (the source
calls the entry point with `\x7b\x7d as any` as the default). -/
structure AstroComponentProps where
  displayName : Option String
  hydrate : Option HydrateMode
  componentUrl : Option String
  componentExport : Option ComponentExport

/-- JS template-literal coercion for a possibly-`undefined` string. -/
def jsStr : Option String → String
  | none => "undefined"
  | some s => s

/-- JS truthiness of the `source : string | null` field (`null` and the empty
string are falsy; both built-in instances carry `source: ''`). -/
def sourceTruthy : Option String → Bool
  | none => false
  | some s => s ≠ ""

/-- The fallback name used by `getComponentName` when `componentProps.displayName`
is falsy: `displayName ?? name` for functions (nullish coalescing, so an empty
`displayName` string IS used), the string itself for tags, and the JS string
coercion for everything else. -/
def componentFallbackName : ComponentValue → String
  | .nullc => "null"
  | .str s => s
  | .func dn nm => match dn with
    | some d => d
    | none => nm
  | .other c => c

/-- `getComponentName(Component, componentProps)`. -/
def getComponentName (comp : ComponentValue) (componentProps : AstroComponentProps) : String :=
  match componentProps.displayName with
  | some d => if d = "" then componentFallbackName comp else d
  | none => componentFallbackName comp

/-- The body of the async callback in the hydration script (`hydrationSource`),
after the source's `.trim()` has removed the leading and trailing newline and
indentation of the template literal. If `source` is truthy the generated code
destructures the named export and calls the client hydrate helper with the
serialized props; reading `componentExport.value` when `componentExport` is
absent at runtime is the JS `TypeError` modelled by the `Except.error` case. -/
def hydrationSourceFor (source : Option String) (propsLit : String)
    (componentUrl : Option String) (componentExport : Option ComponentExport) :
    Except String String :=
  if sourceTruthy source then
    match componentExport with
    | none => .error "TypeError: cannot read componentExport.value of undefined"
    | some ex =>
      .ok ("const [\x7b " ++ ex.value ++ ": Component \x7d, \x7b default: hydrate \x7d] = await Promise.all([import(\"" ++
        jsStr componentUrl ++ "\"), import(\"" ++ jsStr source ++ "\")]);\n  return (el, children) => hydrate(el)(Component, " ++
        propsLit ++ ", children);")
  else
    .ok ("await import(\"" ++ jsStr componentUrl ++ "\");\n  return () => \x7b\x7d;")

/-- `generateHydrateScript`: the inline module script importing the per-mode
setup helper and registering the async hydration callback. -/
def generateHydrateScript (source : Option String) (astroId : String) (propsLit : String)
    (mode : HydrateMode) (componentUrl : Option String) (componentExport : Option ComponentExport) :
    Except String String :=
  match hydrationSourceFor source propsLit componentUrl componentExport with
  | .error m => .error m
  | .ok hydrationSource =>
    .ok ("<script type=\"module\">\nimport setup from \x27/_astro_frontend/hydrate/" ++
      HydrateMode.str mode ++ ".js\x27;\nsetup(\"" ++ astroId ++ "\", async () => \x7b\n  " ++
      hydrationSource ++ "\n\x7d);\n</script>")

/-- The opening wrapper marker tag `<astro-fragment>` as characters. -/
def openTagChars : List Char :=
  ['<', 'a', 's', 't', 'r', 'o', '-', 'f', 'r', 'a', 'g', 'm', 'e', 'n', 't', '>']

/-- The closing wrapper marker tag `</astro-fragment>` as characters. -/
def closeTagChars : List Char :=
  ['<', '/', 'a', 's', 't', 'r', 'o', '-', 'f', 'r', 'a', 'g', 'm', 'e', 'n', 't', '>']

/-- Attempt to match `tag` literally (case-sensitively, character by
character) at the head of the input; on success return the input after the
matched occurrence. This is the single-position match attempt of the regex. -/
def dropTag : List Char → List Char → Option (List Char)
  | [], l => some l
  | _ :: _, [] => none
  | p :: ps, c :: cs => if p = c then dropTag ps cs else none

/-- One left-to-right pass of the global regex replace
`html.replace(/\x3C\x5C\/?astro-fragment\x3E/g, '')`, fuelled for structural
recursion: at each position, if the exact closing or opening marker tag starts
there it is removed and scanning resumes AFTER the removed occurrence (no
rescan of the spliced output, exactly like a JS global replace); otherwise the
character is kept. The pattern is case-sensitive and admits no attributes; the
closing-tag alternative is tried first, matching the regex's greedy optional
slash (the two can never both match at one position). One unit of fuel is
spent per position, so fuel equal to the input length always suffices; the
fuel-exhaustion branch is unreachable from `stripFragment` (theorem
`stripFragmentGo_fuel_irrelevant` below). -/
def stripFragmentGo : Nat → List Char → List Char
  | _, [] => []
  | 0, l => l
  | fuel + 1, c :: cs =>
    match dropTag closeTagChars (c :: cs) with
    | some rest => stripFragmentGo fuel rest
    | none =>
      match dropTag openTagChars (c :: cs) with
      | some rest => stripFragmentGo fuel rest
      | none => c :: stripFragmentGo fuel cs

/-- `html.replace(/\x3C\x5C\/?astro-fragment\x3E/g, '')` on strings. -/
def stripFragment (s : String) : String :=
  String.mk (stripFragmentGo s.data.length s.data)

/-- The polyfill step: when `instance.polyfills` is non-empty, one module
script tag per polyfill URL is appended after the markup, in order. -/
def appendPolyfills (html : String) (polyfills : List String) : String :=
  if polyfills.length = 0 then html
  else html ++ String.join (polyfills.map fun src =>
    "<script type=\"module\" src=\"" ++ src ++ "\"></script>")

/-- Errors the render pipeline can surface: a value rethrown from an adapter
`check` (`throw errors[0]`) or a JS `Error`/`TypeError` message. -/
inductive RenderError (ε : Type)
  | adapterError (e : ε)
  | message (msg : String)

/-- Instrumented result of one render call: the returned markup or thrown
error, the cache afterwards, the number of `check` invocations, and which
instance actually rendered (for observing the fallback choice). -/
structure RenderResult (π ε : Type) where
  result : Except (RenderError ε) String
  cache : RendererCacheMap π ε
  checks : Nat
  used : Option (RendererInstance π ε)

/-- The tail of the second-stage body once an instance has been chosen:
render to static markup, append polyfill scripts, then either strip the
wrapper markers (no hydration) or emit `<astro-root uid=...>` plus the
hydration script joined by a newline. -/
def renderWithInstance {π ε : Type} (hashUnique : String → String) (serialize : π → String)
    (comp : ComponentValue) (componentProps : AstroComponentProps) (props : π)
    (children : String) (inst : RendererInstance π ε) : Except (RenderError ε) String :=
  let html := appendPolyfills (inst.renderHtml comp props children) inst.polyfills
  match componentProps.hydrate with
  | none => .ok (stripFragment html)
  | some mode =>
    let astroId := hashUnique html
    match generateHydrateScript inst.source astroId (serialize props) mode
        componentProps.componentUrl componentProps.componentExport with
    | .error m => .error (.message m)
    | .ok script =>
      .ok ("<astro-root uid=\"" ++ astroId ++ "\">" ++ html ++ "</astro-root>" ++ "\n" ++ script)

/-- The second stage of `__astro_component` (the returned async closure):
join the children with newlines, resolve the renderer, apply the fallback
policy (custom-element tag → html renderer instance; exactly two registry
entries → index 1; otherwise throw naming the component), then render. -/
def astroComponentRender {π ε : Type} (astroHtmlRendererInstance : RendererInstance π ε)
    (hashUnique : String → String) (serialize : π → String) (st : AstroState π ε)
    (comp : ComponentValue) (componentProps : AstroComponentProps) (props : π)
    (childrenList : List String) : RenderResult π ε :=
  let children := String.intercalate "\n" childrenList
  let r := resolveRenderer st comp props children
  match r.outcome with
  | .threw e => ⟨.error (.adapterError e), r.cache, r.checks, none⟩
  | .found inst =>
    ⟨renderWithInstance hashUnique serialize comp componentProps props children inst,
      r.cache, r.checks, some inst⟩
  | .noMatch =>
    if isCustomElementTag comp then
      ⟨renderWithInstance hashUnique serialize comp componentProps props children
          astroHtmlRendererInstance,
        r.cache, r.checks, some astroHtmlRendererInstance⟩
    else if h2 : st.rendererInstances.length = 2 then
      let inst := st.rendererInstances.get ⟨1, by omega⟩
      ⟨renderWithInstance hashUnique serialize comp componentProps props children inst,
        r.cache, r.checks, some inst⟩
    else
      ⟨.error (.message ("No renderer found for " ++ getComponentName comp componentProps ++
        "! Did you forget to add a renderer to your Astro config?")),
        r.cache, r.checks, none⟩

/-- The first stage of `__astro_component`: fail fast on a `null`/`undefined`
component or a string component that is not a custom-element-shaped tag. -/
def astroComponentStage1 (comp : ComponentValue) (componentProps : AstroComponentProps) :
    Except String Unit :=
  match comp with
  | .nullc =>
    .error ("Unable to render " ++ jsStr componentProps.displayName ++ " because it is " ++
      componentFallbackName ComponentValue.nullc ++
      "!\nDid you forget to import the component or is it possible there is a typo?")
  | .str s =>
    if s.data.contains '-' then .ok ()
    else
      .error ("Astro is unable to render " ++ jsStr componentProps.displayName ++
        "!\nIs there a renderer to handle this type of component defined in your Astro config?")
  | _ => .ok ()

/-- Both stages composed: a first-stage throw yields the error with no state
change and zero `check` invocations; otherwise the second stage runs. -/
def astroComponent {π ε : Type} (astroHtmlRendererInstance : RendererInstance π ε)
    (hashUnique : String → String) (serialize : π → String) (st : AstroState π ε)
    (comp : ComponentValue) (componentProps : AstroComponentProps) (props : π)
    (childrenList : List String) : RenderResult π ε :=
  match astroComponentStage1 comp componentProps with
  | .error m => ⟨.error (.message m), st.rendererCache, 0, none⟩
  | .ok _ =>
    astroComponentRender astroHtmlRendererInstance hashUnique serialize st comp
      componentProps props childrenList

/-- First error thrown across the registry scan (in registry order), if any. -/
def firstCheckError {π ε : Type} (comp : ComponentValue) (props : π) (children : String) :
    List (RendererInstance π ε) → Option ε
  | [] => none
  | inst :: rest =>
    match inst.check comp props children with
    | .err e => some e
    | _ => firstCheckError comp props children rest

/-- What the scan loop produces once it has fallen off the end of the
registry, given the errors collected so far and the first error of the
remaining scan: throw the first collected error, else `undefined`. -/
def loopEndOutcome {π ε : Type} (errors : List ε) (more : Option ε) : ResolveOutcome π ε :=
  match errors with
  | e :: _ => .threw e
  | [] =>
    match more with
    | some e => .threw e
    | none => .noMatch

/-- Decomposition of adapter markup into wrapper marker tags and text runs,
used to state what the marker-stripping pass does to markup that interleaves
(possibly nested or duplicated) exact marker tags with marker-free text. -/
inductive FragPart
  | openP
  | closeP
  | text (t : List Char)
deriving DecidableEq

/-- The characters contributed by one markup part. -/
def FragPart.chars : FragPart → List Char
  | .openP => openTagChars
  | .closeP => closeTagChars
  | .text t => t

/-- Concatenate a markup decomposition back into the raw character stream. -/
def fragJoin : List FragPart → List Char
  | [] => []
  | p :: ps => p.chars ++ fragJoin ps

/-- The text runs of a markup decomposition, with every marker tag dropped. -/
def fragText : List FragPart → List Char
  | [] => []
  | FragPart.text t :: ps => t ++ fragText ps
  | _ :: ps => fragText ps

/-- Test fixture: a renderer instance over unit props and string errors with
constant `check` and `renderToStaticMarkup` behaviour and no polyfills. -/
def mkInstU (src : Option String) (chk : CheckResult String) (html : String) :
    RendererInstance Unit String :=
  ⟨src, fun _ _ _ => chk, fun _ _ _ => html, []⟩

/-- Test fixture: a custom-element-shaped component value. -/
def fxComp : ComponentValue := ComponentValue.str "x-y"

/-- Test fixture: component props with every field absent. -/
def cp0 : AstroComponentProps := ⟨none, none, none, none⟩

/-- Test fixture: adapters whose checks answer false, true, true in order. -/
def fx1a : RendererInstance Unit String := mkInstU none (CheckResult.ok false) "a"

/-- Test fixture: see `fx1a`. -/
def fx1b : RendererInstance Unit String := mkInstU none (CheckResult.ok true) "b"

/-- Test fixture: see `fx1a`. -/
def fx1c : RendererInstance Unit String := mkInstU none (CheckResult.ok true) "c"

/-- Test fixture: registry false/true/true with an empty cache. -/
def fx1st : AstroState Unit String := ⟨[fx1a, fx1b, fx1c], []⟩

/-- Test fixture: the stand-in for `astroHtmlRendererInstance` (its renderer
module lives outside this source file; only its record shape matters here). -/
def fxHtml : RendererInstance Unit String := mkInstU (some "") (CheckResult.ok false) "<div>x</div>"

/-- Test fixture: a single never-matching adapter with an empty cache. -/
def fx3st : AstroState Unit String := ⟨[mkInstU none (CheckResult.ok false) "d"], []⟩

/-- Test fixture: component props carrying only a display name. -/
def cp4 : AstroComponentProps := ⟨some "Foo", none, none, none⟩

/-- Test fixture: first adapter throws, second completes returning false. -/
def fx5a : RendererInstance Unit String := mkInstU none (CheckResult.err "boom1") "e"

/-- Test fixture: see `fx5a`. -/
def fx5b : RendererInstance Unit String := mkInstU none (CheckResult.ok false) "f"

/-- Test fixture: registry throw/false with an empty cache. -/
def fx5st : AstroState Unit String := ⟨[fx5a, fx5b], []⟩

/-- Test fixture: registry throw/false/throw with an empty cache. -/
def fx5wst : AstroState Unit String :=
  ⟨[mkInstU none (CheckResult.err "a") "g", mkInstU none (CheckResult.ok false) "h",
    mkInstU none (CheckResult.err "b") "i"], []⟩

/-- Test fixture: registry where every check throws, with an empty cache. -/
def fx6st : AstroState Unit String :=
  ⟨[mkInstU none (CheckResult.err "e1") "j", mkInstU none (CheckResult.err "e2") "k"], []⟩

/-- Test fixture: markup decomposition, an exact marker pair around text. -/
def fragPs7 : List FragPart := [FragPart.openP, FragPart.text ['h', 'i'], FragPart.closeP]

/-- Test fixture: an adapter emitting exactly the `fragPs7` markup. -/
def fx7Inst : RendererInstance Unit String :=
  ⟨none, fun _ _ _ => CheckResult.ok true, fun _ _ _ => String.mk (fragJoin fragPs7), []⟩

/-- Test fixture: registry holding only `fx7Inst`, empty cache. -/
def fx7st : AstroState Unit String := ⟨[fx7Inst], []⟩

/-- Test fixture: matching adapter with client source "A" (pre-`setRenderers`
registry). -/
def fx8A : RendererInstance Unit String := mkInstU (some "A") (CheckResult.ok true) "ha"

/-- Test fixture: the self adapter installed by the later `setRenderers` call. -/
def fx8Self : RendererInstance Unit String := mkInstU (some "self") (CheckResult.ok false) "hs"

/-- Test fixture: the sole user adapter of the later registry. -/
def fx8B : RendererInstance Unit String := mkInstU (some "B") (CheckResult.ok false) "hb"

/-- Test fixture: initial state whose registry is just `fx8A`. -/
def fx8st0 : AstroState Unit String := ⟨[fx8A], []⟩

/-- Test fixture: the state after one successful resolve of `fxComp` (the
cache now maps `fxComp` to `fx8A`). -/
def fx8st1 : AstroState Unit String :=
  ⟨[fx8A], (resolveRenderer fx8st0 fxComp () "").cache⟩

/-- Test fixture: the state after `setRenderers` replaced the registry. -/
def fx8st2 : AstroState Unit String := setRenderers fx8Self [fx8B] fx8st1

/-- Test fixture: a state with an empty registry and a pre-seeded cache. -/
def fx8wst : AstroState Unit String := ⟨[], [(fxComp, fx8A)]⟩

/-- Test fixture: a matching source-less adapter over `Nat` props. -/
def fx9Inst : RendererInstance Nat String :=
  ⟨none, fun _ _ _ => CheckResult.ok true, fun _ _ _ => "X", []⟩

/-- Test fixture: the html-renderer stand-in over `Nat` props. -/
def fx9Html : RendererInstance Nat String :=
  ⟨some "", fun _ _ _ => CheckResult.ok false, fun _ _ _ => "", []⟩

/-- Test fixture: registry holding only `fx9Inst`, empty cache. -/
def fx9st : AstroState Nat String := ⟨[fx9Inst], []⟩

/-- Test fixture: props requesting the load hydrate mode with a component URL
and a named export. -/
def cp9 : AstroComponentProps := ⟨none, some HydrateMode.load, some "u", some ⟨"Comp", false⟩⟩

/-- Test fixture: the markup produced by the hydrated render of `fx9Inst`
with props `42` serialized by `Nat.repr`. -/
def fx9Out : String :=
  match (astroComponentRender fx9Html (fun _ => "ID") Nat.repr fx9st fxComp cp9 42 []).result with
  | .ok s => s
  | .error _ => ""

/-- Test fixture: a matching adapter over `Nat` props WITH a client source. -/
def fx9sInst : RendererInstance Nat String :=
  ⟨some "SRC", fun _ _ _ => CheckResult.ok true, fun _ _ _ => "H", []⟩

/-- Test fixture: registry holding only `fx9sInst`, empty cache. -/
def fx9sst : AstroState Nat String := ⟨[fx9sInst], []⟩

/-- String append acts as list append on the underlying characters. -/
theorem stringAppend_data (a b : String) : (a ++ b).data = a.data ++ b.data := by
  cases a; cases b; rfl

/-- `Map.set` followed by a lookup of the same key yields the set value. -/
theorem cacheSet_lookup {π ε : Type} (m : RendererCacheMap π ε) (c : ComponentValue)
    (v : RendererInstance π ε) : cacheLookup (cacheSet m c v) c = some v := by
  induction m with
  | nil => simp [cacheSet, cacheLookup]
  | cons kv rest ih =>
    by_cases h : kv.1 = c
    · simp [cacheSet, h, cacheLookup]
    · simp [cacheSet, h, cacheLookup, ih]

/-- If the first `check` returning true is at index `k`, the scan loop stops
there: it performs exactly `k + 1` invocations and yields that instance,
whatever errors earlier adapters may have thrown. -/
theorem resolveLoop_first_true {π ε : Type} (comp : ComponentValue) (props : π)
    (children : String) :
    ∀ (L : List (RendererInstance π ε)) (errs : List ε) (k : Nat) (hk : k < L.length),
    (∀ i, (hik : i < k) →
      (L.get ⟨i, Nat.lt_trans hik hk⟩).check comp props children ≠ CheckResult.ok true) →
    (L.get ⟨k, hk⟩).check comp props children = CheckResult.ok true →
    resolveLoop comp props children L errs = (ResolveOutcome.found (L.get ⟨k, hk⟩), k + 1) := by
  intro L
  induction L with
  | nil =>
    intro errs k hk
    exact absurd hk (by simp)
  | cons inst rest ih =>
    intro errs k hk hprev htrue
    match k with
    | 0 =>
      simp only [List.get] at htrue ⊢
      simp [resolveLoop, htrue]
    | k + 1 =>
      have h0 : inst.check comp props children ≠ CheckResult.ok true := by
        simpa [List.get] using hprev 0 (Nat.succ_pos k)
      have hk' : k < rest.length := Nat.lt_of_succ_lt_succ hk
      have hprev' : ∀ i, (hik : i < k) →
          (rest.get ⟨i, Nat.lt_trans hik hk'⟩).check comp props children ≠ CheckResult.ok true := by
        intro i hik
        simpa [List.get] using hprev (i + 1) (Nat.succ_lt_succ hik)
      have htrue' : (rest.get ⟨k, hk'⟩).check comp props children = CheckResult.ok true := by
        simpa [List.get] using htrue
      cases hc : inst.check comp props children with
      | ok b =>
        cases b with
        | true => exact absurd hc h0
        | false =>
          simp [resolveLoop, hc, ih errs k hk' hprev' htrue', List.get]
      | err e =>
        simp [resolveLoop, hc, ih (errs ++ [e]) k hk' hprev' htrue', List.get]

/-- The scan loop never performs more invocations than the registry has
adapters. -/
theorem resolveLoop_checks_le {π ε : Type} (comp : ComponentValue) (props : π)
    (children : String) :
    ∀ (L : List (RendererInstance π ε)) (errs : List ε),
    (resolveLoop comp props children L errs).2 ≤ L.length := by
  intro L
  induction L with
  | nil => intro errs; cases errs <;> simp [resolveLoop]
  | cons inst rest ih =>
    intro errs
    cases hc : inst.check comp props children with
    | ok b =>
      cases b with
      | true => simp [resolveLoop, hc]
      | false => simpa [resolveLoop, hc, Nat.succ_le_succ_iff] using ih errs
    | err e => simpa [resolveLoop, hc, Nat.succ_le_succ_iff] using ih (errs ++ [e])

/-- When no check answers true, the scan loop traverses the whole registry
and ends by rethrowing the first collected error, if any. -/
theorem resolveLoop_no_true {π ε : Type} (comp : ComponentValue) (props : π)
    (children : String) :
    ∀ (L : List (RendererInstance π ε)) (errs : List ε),
    (∀ i, (hi : i < L.length) →
      (L.get ⟨i, hi⟩).check comp props children ≠ CheckResult.ok true) →
    resolveLoop comp props children L errs =
      (loopEndOutcome errs (firstCheckError comp props children L), L.length) := by
  intro L
  induction L with
  | nil =>
    intro errs _
    cases errs <;> simp [resolveLoop, loopEndOutcome, firstCheckError]
  | cons inst rest ih =>
    intro errs hnt
    have h0 : inst.check comp props children ≠ CheckResult.ok true := by
      simpa [List.get] using hnt 0 (by simp)
    have hnt' : ∀ i, (hi : i < rest.length) →
        (rest.get ⟨i, hi⟩).check comp props children ≠ CheckResult.ok true := by
      intro i hi
      simpa [List.get] using hnt (i + 1) (by simpa using Nat.succ_lt_succ hi)
    cases hc : inst.check comp props children with
    | ok b =>
      cases b with
      | true => exact absurd hc h0
      | false => simp [resolveLoop, hc, firstCheckError, ih errs hnt']
    | err e =>
      have happ : (loopEndOutcome (errs ++ [e]) (firstCheckError comp props children rest)
          : ResolveOutcome π ε) = loopEndOutcome errs (some e) := by
        cases errs <;> simp [loopEndOutcome]
      simp [resolveLoop, hc, firstCheckError, ih (errs ++ [e]) hnt', happ]

/-- If some check in the registry answers true, the scan loop finds an
instance (the earliest match), whatever was collected before. -/
theorem resolveLoop_found_of_exists {π ε : Type} (comp : ComponentValue) (props : π)
    (children : String) :
    ∀ (L : List (RendererInstance π ε)) (errs : List ε),
    (∃ i, ∃ hi : i < L.length, (L.get ⟨i, hi⟩).check comp props children = CheckResult.ok true) →
    ∃ inst n, resolveLoop comp props children L errs = (ResolveOutcome.found inst, n) := by
  intro L
  induction L with
  | nil =>
    intro errs ⟨i, hi, _⟩
    exact absurd hi (by simp)
  | cons inst rest ih =>
    intro errs ⟨i, hi, hito⟩
    cases hc : inst.check comp props children with
    | ok b =>
      cases b with
      | true => exact ⟨inst, 1, by simp [resolveLoop, hc]⟩
      | false =>
        match i, hi, hito with
        | 0, _, hito => simp [List.get] at hito; simp [hc] at hito
        | i + 1, hi, hito =>
          obtain ⟨r, n, hr⟩ := ih errs ⟨i, Nat.lt_of_succ_lt_succ hi, by simpa [List.get] using hito⟩
          exact ⟨r, n + 1, by simp [resolveLoop, hc, hr]⟩
    | err e =>
      match i, hi, hito with
      | 0, _, hito => simp [List.get] at hito; simp [hc] at hito
      | i + 1, hi, hito =>
        obtain ⟨r, n, hr⟩ := ih (errs ++ [e]) ⟨i, Nat.lt_of_succ_lt_succ hi, by simpa [List.get] using hito⟩
        exact ⟨r, n + 1, by simp [resolveLoop, hc, hr]⟩

/-- A loop run that ends in `undefined` has scanned the whole registry. -/
theorem resolveLoop_noMatch_checks {π ε : Type} (comp : ComponentValue) (props : π)
    (children : String) :
    ∀ (L : List (RendererInstance π ε)) (errs : List ε),
    (resolveLoop comp props children L errs).1 = ResolveOutcome.noMatch →
    (resolveLoop comp props children L errs).2 = L.length := by
  intro L
  induction L with
  | nil => intro errs h; cases errs <;> simp [resolveLoop] at h ⊢
  | cons inst rest ih =>
    intro errs h
    cases hc : inst.check comp props children with
    | ok b =>
      cases b with
      | true => rw [show resolveLoop comp props children (inst :: rest) errs = (ResolveOutcome.found inst, 1) from by simp [resolveLoop, hc]] at h; simp at h
      | false =>
        simp only [resolveLoop, hc] at h ⊢
        simp [ih errs (by simpa using h)]
    | err e =>
      simp only [resolveLoop, hc] at h ⊢
      simp [ih (errs ++ [e]) (by simpa using h)]

/-- C1: for an uncached component value, if adapter `k` (0-indexed here; the
spec counts 1-indexed including the prepended self adapter, so its adapter
`k` is index `k - 1`) is the first whose `check` returns true, then
`resolveRenderer` performs exactly `k + 1` check invocations — one per
adapter up to and including the match, so the adapters after the match are
never invoked — returns that adapter's record, and records it in the cache
under the component value. -/
theorem resolveRenderer_first_match {π ε : Type} (st : AstroState π ε)
    (comp : ComponentValue) (props : π) (children : String) (k : Nat)
    (hcm : cacheLookup st.rendererCache comp = none)
    (hk : k < st.rendererInstances.length)
    (hprev : ∀ i, (hik : i < k) →
      (st.rendererInstances.get ⟨i, Nat.lt_trans hik hk⟩).check comp props children ≠
        CheckResult.ok true)
    (htrue : (st.rendererInstances.get ⟨k, hk⟩).check comp props children = CheckResult.ok true) :
    resolveRenderer st comp props children =
      ⟨ResolveOutcome.found (st.rendererInstances.get ⟨k, hk⟩),
        cacheSet st.rendererCache comp (st.rendererInstances.get ⟨k, hk⟩), k + 1⟩ ∧
    cacheLookup (resolveRenderer st comp props children).cache comp =
      some (st.rendererInstances.get ⟨k, hk⟩) := by
  have hloop := resolveLoop_first_true comp props children st.rendererInstances [] k hk hprev htrue
  constructor
  · simp [resolveRenderer, hcm, hloop]
  · simp [resolveRenderer, hcm, hloop, cacheSet_lookup]

/-- C1 witness: in the registry false/true/true, the second adapter wins
after exactly two check invocations and is cached. -/
theorem resolveRenderer_first_match_witness :
    resolveRenderer fx1st fxComp () "" = ⟨ResolveOutcome.found fx1b, [(fxComp, fx1b)], 2⟩ ∧
    cacheLookup (resolveRenderer fx1st fxComp () "").cache fxComp = some fx1b :=
  resolveRenderer_first_match fx1st fxComp () "" 1 rfl (by decide)
    (by
      intro i hik
      have h0 : i = 0 := by omega
      subst h0
      exact (by decide : fx1a.check fxComp () "" ≠ CheckResult.ok true))
    rfl

/-- After a resolve that returned an instance, the cache maps the component
value to that instance. -/
theorem resolve_found_lookup {π ε : Type} (st : AstroState π ε) (comp : ComponentValue)
    (props : π) (children : String) (r : RendererInstance π ε)
    (h : (resolveRenderer st comp props children).outcome = ResolveOutcome.found r) :
    cacheLookup (resolveRenderer st comp props children).cache comp = some r := by
  cases hcm : cacheLookup st.rendererCache comp with
  | some inst =>
    simp [resolveRenderer, hcm] at h ⊢
    exact h
  | none =>
    cases hl : (resolveLoop comp props children st.rendererInstances []).1 with
    | found inst =>
      simp [resolveRenderer, hcm, hl] at h ⊢
      rw [← h]
      exact cacheSet_lookup st.rendererCache comp inst
    | noMatch => simp [resolveRenderer, hcm, hl] at h
    | threw e => simp [resolveRenderer, hcm, hl] at h

/-- A resolve whose cache already holds the component value returns the
cached record immediately, with no check invocations and no cache change. -/
theorem resolveRenderer_of_lookup {π ε : Type} (st : AstroState π ε) (comp : ComponentValue)
    (props : π) (children : String) (r : RendererInstance π ε)
    (hl : cacheLookup st.rendererCache comp = some r) :
    resolveRenderer st comp props children = ⟨ResolveOutcome.found r, st.rendererCache, 0⟩ := by
  simp [resolveRenderer, hl]

/-- A resolve never performs more check invocations than the registry has
adapters. -/
theorem resolveRenderer_checks_le {π ε : Type} (st : AstroState π ε) (comp : ComponentValue)
    (props : π) (children : String) :
    (resolveRenderer st comp props children).checks ≤ st.rendererInstances.length := by
  cases hcm : cacheLookup st.rendererCache comp with
  | some inst => simp [resolveRenderer, hcm]
  | none =>
    have hle := resolveLoop_checks_le comp props children st.rendererInstances []
    cases hl : (resolveLoop comp props children st.rendererInstances []).1 <;>
      simp [resolveRenderer, hcm, hl, hle]

/-- C2: after a resolve call that found an adapter for a component value,
a later resolve of the same component value (with possibly different props
and children) is a cache hit: it returns the same adapter record immediately,
performs zero check invocations, and leaves the cache unchanged; combined
with the bound on the first call (and the loop visiting each registry entry
at most once), each adapter's check runs at most once across both calls. -/
theorem resolveRenderer_cache_hit {π ε : Type} (st : AstroState π ε) (comp : ComponentValue)
    (props : π) (children : String) (props2 : π) (children2 : String)
    (r : RendererInstance π ε)
    (h : (resolveRenderer st comp props children).outcome = ResolveOutcome.found r) :
    resolveRenderer ⟨st.rendererInstances, (resolveRenderer st comp props children).cache⟩
        comp props2 children2 =
      ⟨ResolveOutcome.found r, (resolveRenderer st comp props children).cache, 0⟩ ∧
    (resolveRenderer st comp props children).checks ≤ st.rendererInstances.length := by
  constructor
  · exact resolveRenderer_of_lookup
      ⟨st.rendererInstances, (resolveRenderer st comp props children).cache⟩
      comp props2 children2 r (resolve_found_lookup st comp props children r h)
  · exact resolveRenderer_checks_le st comp props children

/-- C2 witness: a second resolve of the already-resolved component is served
from the cache with zero check invocations. -/
theorem resolveRenderer_cache_hit_witness :
    resolveRenderer ⟨fx1st.rendererInstances, (resolveRenderer fx1st fxComp () "").cache⟩
        fxComp () "other" =
      ⟨ResolveOutcome.found fx1b, (resolveRenderer fx1st fxComp () "").cache, 0⟩ ∧
    (resolveRenderer fx1st fxComp () "").checks ≤ fx1st.rendererInstances.length :=
  resolveRenderer_cache_hit fx1st fxComp () "" () "other" fx1b rfl

/-- C5 counterexample: in the registry [throws "boom1", returns false], the
second adapter's check completes (returns false) without throwing, yet
`resolveRenderer` still throws the first adapter's error instead of
returning undefined — refuting the claim that completion of one check makes
resolution swallow the other checks' errors and not throw. -/
theorem resolveRenderer_swallow_counterexample :
    (resolveRenderer fx5st fxComp () "").outcome = ResolveOutcome.threw "boom1" ∧
    fx5b.check fxComp () "" = CheckResult.ok false :=
  ⟨rfl, rfl⟩

/-- Head error of a nonempty registry whose first check throws. -/
theorem firstCheckError_head {π ε : Type} (comp : ComponentValue) (props : π)
    (children : String) (L : List (RendererInstance π ε)) (hne : 0 < L.length) (e0 : ε)
    (h0 : (L.get ⟨0, hne⟩).check comp props children = CheckResult.err e0) :
    firstCheckError comp props children L = some e0 := by
  match L, hne with
  | inst :: rest, _ =>
    simp only [List.get] at h0
    simp [firstCheckError, h0]

/-- C5 amended: errors thrown by adapter checks are swallowed exactly when
some adapter's check returns true (the scan then returns the first match);
if NO check returns true and at least one check threw, `resolveRenderer`
throws the first thrown error — even when other checks completed (returned
false) without throwing. -/
theorem resolveRenderer_error_policy {π ε : Type} (st : AstroState π ε)
    (comp : ComponentValue) (props : π) (children : String) :
    ((∃ i, ∃ hi : i < st.rendererInstances.length,
        (st.rendererInstances.get ⟨i, hi⟩).check comp props children = CheckResult.ok true) →
      ∃ r, (resolveRenderer st comp props children).outcome = ResolveOutcome.found r) ∧
    (∀ e, cacheLookup st.rendererCache comp = none →
      (∀ i, (hi : i < st.rendererInstances.length) →
        (st.rendererInstances.get ⟨i, hi⟩).check comp props children ≠ CheckResult.ok true) →
      firstCheckError comp props children st.rendererInstances = some e →
      (resolveRenderer st comp props children).outcome = ResolveOutcome.threw e) := by
  constructor
  · intro hex
    cases hcm : cacheLookup st.rendererCache comp with
    | some inst => exact ⟨inst, by simp [resolveRenderer, hcm]⟩
    | none =>
      obtain ⟨r, n, hr⟩ := resolveLoop_found_of_exists comp props children
        st.rendererInstances [] hex
      exact ⟨r, by simp [resolveRenderer, hcm, hr]⟩
  · intro e hcm hnt hfe
    have hloop := resolveLoop_no_true comp props children st.rendererInstances [] hnt
    simp [resolveRenderer, hcm, hloop, hfe, loopEndOutcome]

/-- C5 amended witness: registry [throws "a", returns false, throws "b"]
with nothing matching: the resolve throws the FIRST error "a". -/
theorem resolveRenderer_error_policy_witness :
    (resolveRenderer fx5wst fxComp () "").outcome = ResolveOutcome.threw "a" :=
  (resolveRenderer_error_policy fx5wst fxComp () "").2 "a" rfl
    (by
      intro i hi
      have h3 : i = 0 ∨ i = 1 ∨ i = 2 := by
        have : i < 3 := by simpa [fx5wst] using hi
        omega
      rcases h3 with h | h | h <;> subst h
      · exact (by decide :
          (mkInstU none (CheckResult.err "a") "g").check fxComp () "" ≠ CheckResult.ok true)
      · exact (by decide :
          (mkInstU none (CheckResult.ok false) "h").check fxComp () "" ≠ CheckResult.ok true)
      · exact (by decide :
          (mkInstU none (CheckResult.err "b") "i").check fxComp () "" ≠ CheckResult.ok true))
    rfl

/-- C6: when every adapter's check throws, `resolveRenderer` throws the
error raised by the FIRST adapter in registry order, after scanning the
whole registry; the later errors are discarded. -/
theorem resolveRenderer_all_throw_first {π ε : Type} (st : AstroState π ε)
    (comp : ComponentValue) (props : π) (children : String) (e0 : ε)
    (hcm : cacheLookup st.rendererCache comp = none)
    (hne : 0 < st.rendererInstances.length)
    (hall : ∀ i, (hi : i < st.rendererInstances.length) →
      ∃ e, (st.rendererInstances.get ⟨i, hi⟩).check comp props children = CheckResult.err e)
    (h0 : (st.rendererInstances.get ⟨0, hne⟩).check comp props children = CheckResult.err e0) :
    resolveRenderer st comp props children =
      ⟨ResolveOutcome.threw e0, st.rendererCache, st.rendererInstances.length⟩ := by
  have hnt : ∀ i, (hi : i < st.rendererInstances.length) →
      (st.rendererInstances.get ⟨i, hi⟩).check comp props children ≠ CheckResult.ok true := by
    intro i hi
    obtain ⟨e, he⟩ := hall i hi
    simp only [he]
    simp
  have hloop := resolveLoop_no_true comp props children st.rendererInstances [] hnt
  have hfe := firstCheckError_head comp props children st.rendererInstances hne e0 h0
  simp [resolveRenderer, hcm, hloop, hfe, loopEndOutcome]

/-- C6 witness: registry [throws "e1", throws "e2"]: the resolve throws
"e1" after two check invocations. -/
theorem resolveRenderer_all_throw_first_witness :
    resolveRenderer fx6st fxComp () "" = ⟨ResolveOutcome.threw "e1", [], 2⟩ :=
  resolveRenderer_all_throw_first fx6st fxComp () "" "e1" rfl (by decide)
    (by
      intro i hi
      have h2 : i = 0 ∨ i = 1 := by
        have : i < 2 := by simpa [fx6st] using hi
        omega
      rcases h2 with h | h <;> subst h
      · exact ⟨"e1", rfl⟩
      · exact ⟨"e2", rfl⟩)
    rfl

/-- A resolve that returns `undefined` leaves the cache untouched and has
scanned the whole registry. -/
theorem resolve_noMatch_eq {π ε : Type} (st : AstroState π ε) (comp : ComponentValue)
    (props : π) (children : String)
    (h : (resolveRenderer st comp props children).outcome = ResolveOutcome.noMatch) :
    resolveRenderer st comp props children =
      ⟨ResolveOutcome.noMatch, st.rendererCache, st.rendererInstances.length⟩ := by
  cases hcm : cacheLookup st.rendererCache comp with
  | some inst => simp [resolveRenderer, hcm] at h
  | none =>
    cases hl : (resolveLoop comp props children st.rendererInstances []).1 with
    | found inst => simp [resolveRenderer, hcm, hl] at h
    | threw e => simp [resolveRenderer, hcm, hl] at h
    | noMatch =>
      have hch := resolveLoop_noMatch_checks comp props children st.rendererInstances [] hl
      simp [resolveRenderer, hcm, hl, hch]

/-- C10: when resolution finds no adapter (every check returned false), the
fallback choice the entry point then makes is NOT recorded in the cache: the
render leaves the cache exactly as it was, after a full scan of the registry
— so a subsequent render of the same component value faces the same cache
and re-runs the full scan of checks. -/
theorem astroComponentRender_fallback_not_cached {π ε : Type}
    (astroHtmlInst : RendererInstance π ε) (hashUnique : String → String)
    (serialize : π → String) (st : AstroState π ε) (comp : ComponentValue)
    (cp : AstroComponentProps) (props : π) (kids : List String)
    (hnm : (resolveRenderer st comp props (String.intercalate "\n" kids)).outcome =
      ResolveOutcome.noMatch) :
    (astroComponentRender astroHtmlInst hashUnique serialize st comp cp props kids).cache =
      st.rendererCache ∧
    (resolveRenderer st comp props (String.intercalate "\n" kids)).checks =
      st.rendererInstances.length ∧
    (resolveRenderer st comp props (String.intercalate "\n" kids)).cache = st.rendererCache := by
  have he := resolve_noMatch_eq st comp props (String.intercalate "\n" kids) hnm
  refine ⟨?_, by rw [he], by rw [he]⟩
  simp only [astroComponentRender, he]
  split
  · rfl
  · split
    · rfl
    · rfl

/-- C10 witness: a single never-matching adapter, a custom-element tag: the
render falls back without caching, and the resolve scanned the registry. -/
theorem astroComponentRender_fallback_not_cached_witness :
    (astroComponentRender fxHtml (fun s => s) (fun _ => "U") fx3st fxComp cp0 () []).cache =
      fx3st.rendererCache ∧
    (resolveRenderer fx3st fxComp () (String.intercalate "\n" [])).checks =
      fx3st.rendererInstances.length ∧
    (resolveRenderer fx3st fxComp () (String.intercalate "\n" [])).cache = fx3st.rendererCache :=
  astroComponentRender_fallback_not_cached fxHtml (fun s => s) (fun _ => "U") fx3st fxComp
    cp0 () [] rfl

/-- C3: when resolution yields no adapter and throws no error, the entry
point falls back in this order: (a) a custom-element-shaped component is
rendered by the plain-HTML adapter instance; (b) otherwise, a registry of
exactly 2 entries (self plus one user adapter) defaults to the user adapter
at index 1; (c) otherwise the render throws the "No renderer found"
error naming the component (via `getComponentName`, which prefers the
configured display name). -/
theorem astroComponentRender_fallback_order {π ε : Type}
    (astroHtmlInst : RendererInstance π ε) (hashUnique : String → String)
    (serialize : π → String) (st : AstroState π ε) (comp : ComponentValue)
    (cp : AstroComponentProps) (props : π) (kids : List String)
    (hnm : (resolveRenderer st comp props (String.intercalate "\n" kids)).outcome =
      ResolveOutcome.noMatch) :
    (isCustomElementTag comp = true →
      (astroComponentRender astroHtmlInst hashUnique serialize st comp cp props kids).used =
        some astroHtmlInst) ∧
    (isCustomElementTag comp = false → st.rendererInstances.length = 2 →
      (astroComponentRender astroHtmlInst hashUnique serialize st comp cp props kids).used =
        st.rendererInstances.get? 1) ∧
    (isCustomElementTag comp = false → st.rendererInstances.length ≠ 2 →
      (astroComponentRender astroHtmlInst hashUnique serialize st comp cp props kids).result =
        Except.error (RenderError.message ("No renderer found for " ++
          getComponentName comp cp ++ "! Did you forget to add a renderer to your Astro config?")) ∧
      (astroComponentRender astroHtmlInst hashUnique serialize st comp cp props kids).used =
        none) := by
  have he := resolve_noMatch_eq st comp props (String.intercalate "\n" kids) hnm
  refine ⟨?_, ?_, ?_⟩
  · intro hce
    simp [astroComponentRender, he, hce]
  · intro hce h2
    simp only [astroComponentRender, he, hce]
    rw [List.get?_eq_get (by omega : 1 < st.rendererInstances.length)]
    simp [dif_pos h2]
  · intro hce h2
    simp only [astroComponentRender, he, hce]
    rw [dif_neg h2]
    simp

/-- C3 witness: the custom-element case — "x-y" with a never-matching
registry is rendered by the plain-HTML adapter instance. -/
theorem astroComponentRender_fallback_order_witness :
    (astroComponentRender fxHtml (fun s => s) (fun _ => "U") fx3st fxComp cp0 () []).used =
      some fxHtml :=
  (astroComponentRender_fallback_order fxHtml (fun s => s) (fun _ => "U") fx3st fxComp
    cp0 () [] rfl).1 rfl

/-- C4: for a null/undefined component, or a string component with no hyphen,
the first stage of the entry point throws immediately: the combined call
performs zero adapter check invocations, leaves the cache untouched (resolve
is never reached), and the thrown message contains the rendered
`componentProps.displayName`. -/
theorem astroComponent_invalid_component {π ε : Type}
    (astroHtmlInst : RendererInstance π ε) (hashUnique : String → String)
    (serialize : π → String) (st : AstroState π ε) (comp : ComponentValue)
    (cp : AstroComponentProps) (props : π) (kids : List String)
    (h : comp = ComponentValue.nullc ∨
      ∃ s, comp = ComponentValue.str s ∧ s.data.contains '-' = false) :
    (astroComponent astroHtmlInst hashUnique serialize st comp cp props kids).checks = 0 ∧
    (astroComponent astroHtmlInst hashUnique serialize st comp cp props kids).cache =
      st.rendererCache ∧
    (astroComponent astroHtmlInst hashUnique serialize st comp cp props kids).used = none ∧
    ∃ m, (astroComponent astroHtmlInst hashUnique serialize st comp cp props kids).result =
        Except.error (RenderError.message m) ∧
      (jsStr cp.displayName).data <:+: m.data := by
  rcases h with hnull | ⟨s, hstr, hns⟩
  · subst hnull
    refine ⟨rfl, rfl, rfl,
      "Unable to render " ++ jsStr cp.displayName ++ " because it is " ++
        componentFallbackName ComponentValue.nullc ++
        "!\nDid you forget to import the component or is it possible there is a typo?",
      rfl, ?_⟩
    refine ⟨"Unable to render ".data,
      (" because it is " ++ componentFallbackName ComponentValue.nullc ++
        "!\nDid you forget to import the component or is it possible there is a typo?").data, ?_⟩
    simp [stringAppend_data, List.append_assoc]
  · subst hstr
    have hst : astroComponentStage1 (ComponentValue.str s) cp =
        Except.error ("Astro is unable to render " ++ jsStr cp.displayName ++
          "!\nIs there a renderer to handle this type of component defined in your Astro config?") := by
      have hns2 : ('-' ∈ s.data) = False := by
        simp only [eq_iff_iff, iff_false]
        simpa using hns
      simp [astroComponentStage1, hns, hns2]
    refine ⟨?_, ?_, ?_,
      "Astro is unable to render " ++ jsStr cp.displayName ++
        "!\nIs there a renderer to handle this type of component defined in your Astro config?",
      ?_, ?_⟩
    · simp [astroComponent, hst]
    · simp [astroComponent, hst]
    · simp [astroComponent, hst]
    · simp [astroComponent, hst]
    · refine ⟨"Astro is unable to render ".data,
        "!\nIs there a renderer to handle this type of component defined in your Astro config?".data, ?_⟩
      simp [stringAppend_data, List.append_assoc]

/-- C4 witness: embedding `null` with display name "Foo" fails fast with a
message containing "Foo", zero checks, and an untouched cache. -/
theorem astroComponent_invalid_component_witness :
    (astroComponent fxHtml (fun s => s) (fun _ => "U") fx3st ComponentValue.nullc cp4 () []).checks = 0 ∧
    (astroComponent fxHtml (fun s => s) (fun _ => "U") fx3st ComponentValue.nullc cp4 () []).cache =
      fx3st.rendererCache ∧
    (astroComponent fxHtml (fun s => s) (fun _ => "U") fx3st ComponentValue.nullc cp4 () []).used = none ∧
    ∃ m, (astroComponent fxHtml (fun s => s) (fun _ => "U") fx3st ComponentValue.nullc cp4 () []).result =
        Except.error (RenderError.message m) ∧
      (jsStr cp4.displayName).data <:+: m.data :=
  astroComponent_invalid_component fxHtml (fun s => s) (fun _ => "U") fx3st
    ComponentValue.nullc cp4 () [] (Or.inl rfl)

/-- C8 counterexample: resolve `fxComp` against a registry holding `fx8A`
(cache fills), then call `setRenderers` with a fresh registry [self, B]. The
next resolve still returns the stale record `fx8A` from the cache, with zero
checks, although no instance of the new registry has source "A" — refuting
the claim that `setRenderers` clears the Resolution Cache. -/
theorem setRenderers_stale_cache_counterexample :
    (resolveRenderer fx8st2 fxComp () "").outcome = ResolveOutcome.found fx8A ∧
    (resolveRenderer fx8st2 fxComp () "").checks = 0 ∧
    fx8A.source = some "A" ∧
    fx8st2.rendererInstances.map (fun i => i.source) = [some "self", some "B"] ∧
    some "A" ∉ [some "self", some "B"] :=
  ⟨rfl, rfl, rfl, rfl, by decide⟩

/-- C8 amended: `setRenderers` replaces the registry with the self adapter
prepended but does NOT clear the Resolution Cache; any component value cached
before the call is still served from the cache afterwards (the stale record,
with zero check invocations against the new registry). -/
theorem setRenderers_keeps_cache {π ε : Type} (astroInst : RendererInstance π ε)
    (newInsts : List (RendererInstance π ε)) (st : AstroState π ε)
    (comp : ComponentValue) (props : π) (children : String) (r : RendererInstance π ε)
    (h : cacheLookup st.rendererCache comp = some r) :
    (setRenderers astroInst newInsts st).rendererInstances = astroInst :: newInsts ∧
    (setRenderers astroInst newInsts st).rendererCache = st.rendererCache ∧
    resolveRenderer (setRenderers astroInst newInsts st) comp props children =
      ⟨ResolveOutcome.found r, st.rendererCache, 0⟩ := by
  refine ⟨rfl, rfl, ?_⟩
  exact resolveRenderer_of_lookup (setRenderers astroInst newInsts st) comp props children r h

/-- C8 amended witness: a pre-seeded cache survives `setRenderers` and still
answers with the old record. -/
theorem setRenderers_keeps_cache_witness :
    (setRenderers fx8Self [fx8B] fx8wst).rendererInstances = fx8Self :: [fx8B] ∧
    (setRenderers fx8Self [fx8B] fx8wst).rendererCache = fx8wst.rendererCache ∧
    resolveRenderer (setRenderers fx8Self [fx8B] fx8wst) fxComp () "" =
      ⟨ResolveOutcome.found fx8A, fx8wst.rendererCache, 0⟩ :=
  setRenderers_keeps_cache fx8Self [fx8B] fx8wst fxComp () "" fx8A rfl

/-- A tag matches its own concatenation, leaving the appended tail. -/
theorem dropTag_append (t l : List Char) : dropTag t (t ++ l) = some l := by
  induction t with
  | nil => rfl
  | cons c cs ih => simp [dropTag, ih]

/-- The scan consumes an exact closing marker in one step. -/
theorem stripFragmentGo_closeTag (f : Nat) (l : List Char) :
    stripFragmentGo (f + 1) (closeTagChars ++ l) = stripFragmentGo f l := by
  simp +decide [closeTagChars, openTagChars, stripFragmentGo, dropTag]

/-- The scan consumes an exact opening marker in one step. -/
theorem stripFragmentGo_openTag (f : Nat) (l : List Char) :
    stripFragmentGo (f + 1) (openTagChars ++ l) = stripFragmentGo f l := by
  simp +decide [closeTagChars, openTagChars, stripFragmentGo, dropTag]

/-- The scan keeps any character that is not an opening angle bracket. -/
theorem stripFragmentGo_keep (f : Nat) (c : Char) (cs : List Char) (h : c ≠ '<') :
    stripFragmentGo (f + 1) (c :: cs) = c :: stripFragmentGo f cs := by
  simp [stripFragmentGo, dropTag, closeTagChars, openTagChars, Ne.symm h]

/-- The scan copies a marker-free text run verbatim (spending one unit of
fuel per character). -/
theorem stripFragmentGo_text : ∀ (t : List Char) (f : Nat) (l : List Char), '<' ∉ t →
    (t ++ l).length ≤ f →
    stripFragmentGo f (t ++ l) = t ++ stripFragmentGo (f - t.length) l := by
  intro t
  induction t with
  | nil => intro f l _ _; simp
  | cons c t2 ih =>
    intro f l hlt hlen
    have hc : c ≠ '<' := by
      intro hh
      exact hlt (by simp [hh])
    have hlt2 : '<' ∉ t2 := fun hm => hlt (List.mem_cons_of_mem _ hm)
    obtain ⟨f2, rfl⟩ : ∃ f2, f = f2 + 1 := by
      refine ⟨f - 1, ?_⟩
      simp at hlen
      omega
    rw [List.cons_append, stripFragmentGo_keep f2 c (t2 ++ l) hc,
      ih f2 l hlt2 (by simp at hlen ⊢; omega)]
    simp [Nat.succ_sub_succ]

/-- On markup built by interleaving exact marker tags (nested or duplicated
as you like) with text runs containing no opening angle bracket, the scan
removes precisely the marker tags and keeps the text verbatim. -/
theorem stripFragmentGo_parts : ∀ (ps : List FragPart) (f : Nat),
    (fragJoin ps).length ≤ f → (∀ t, FragPart.text t ∈ ps → '<' ∉ t) →
    stripFragmentGo f (fragJoin ps) = fragText ps := by
  intro ps
  induction ps with
  | nil => intro f _ _; cases f <;> simp [fragJoin, fragText, stripFragmentGo]
  | cons p rest ih =>
    intro f hlen htext
    have htext2 : ∀ t, FragPart.text t ∈ rest → '<' ∉ t :=
      fun t ht => htext t (List.mem_cons_of_mem _ ht)
    cases p with
    | openP =>
      obtain ⟨f2, rfl⟩ : ∃ f2, f = f2 + 1 := by
        refine ⟨f - 1, ?_⟩
        simp [fragJoin, FragPart.chars, openTagChars] at hlen
        omega
      rw [show fragJoin (FragPart.openP :: rest) = openTagChars ++ fragJoin rest from rfl,
        stripFragmentGo_openTag,
        show fragText (FragPart.openP :: rest) = fragText rest from rfl]
      refine ih f2 ?_ htext2
      simp [fragJoin, FragPart.chars, openTagChars] at hlen
      omega
    | closeP =>
      obtain ⟨f2, rfl⟩ : ∃ f2, f = f2 + 1 := by
        refine ⟨f - 1, ?_⟩
        simp [fragJoin, FragPart.chars, closeTagChars] at hlen
        omega
      rw [show fragJoin (FragPart.closeP :: rest) = closeTagChars ++ fragJoin rest from rfl,
        stripFragmentGo_closeTag,
        show fragText (FragPart.closeP :: rest) = fragText rest from rfl]
      refine ih f2 ?_ htext2
      simp [fragJoin, FragPart.chars, closeTagChars] at hlen
      omega
    | text t =>
      have hlt : '<' ∉ t := htext t (List.mem_cons_self _ _)
      rw [show fragJoin (FragPart.text t :: rest) = t ++ fragJoin rest from rfl,
        stripFragmentGo_text t f (fragJoin rest) hlt
          (by simpa [fragJoin, FragPart.chars] using hlen),
        show fragText (FragPart.text t :: rest) = t ++ fragText rest from rfl]
      congr 1
      refine ih (f - t.length) ?_ htext2
      simp [fragJoin, FragPart.chars] at hlen
      omega

/-- The kept text of a decomposition whose runs have no opening angle
bracket has no opening angle bracket either. -/
theorem fragText_no_lt : ∀ (ps : List FragPart),
    (∀ t, FragPart.text t ∈ ps → '<' ∉ t) → '<' ∉ fragText ps := by
  intro ps
  induction ps with
  | nil => intro _; simp [fragText]
  | cons p rest ih =>
    intro h
    have h2 : ∀ t, FragPart.text t ∈ rest → '<' ∉ t :=
      fun t ht => h t (List.mem_cons_of_mem _ ht)
    cases p with
    | openP => simpa [fragText] using ih h2
    | closeP => simpa [fragText] using ih h2
    | text t =>
      intro hm
      rcases List.mem_append.mp (by simpa [fragText] using hm) with hm1 | hm2
      · exact h t (List.mem_cons_self _ _) hm1
      · exact ih h2 hm2

/-- C7 counterexample: the marker removal is case- and attribute-SENSITIVE,
not insensitive as claimed. An uppercase marker pair survives untouched
(whereas an insensitive removal would map the first string to "hi"), and a
marker carrying an attribute is not removed (only the exact bare closing tag
is), so the output can still contain a wrapper marker tag written in another
case or with attributes. -/
theorem stripFragment_case_sensitive_counterexample :
    stripFragment "<ASTRO-FRAGMENT>hi</ASTRO-FRAGMENT>" = "<ASTRO-FRAGMENT>hi</ASTRO-FRAGMENT>" ∧
    stripFragment "<ASTRO-FRAGMENT>hi</ASTRO-FRAGMENT>" ≠ "hi" ∧
    stripFragment "<astro-fragment class=\"c\">hi</astro-fragment>" =
      "<astro-fragment class=\"c\">hi" :=
  ⟨by decide, by decide, by decide⟩

/-- C7 amended: in a non-hydrated render, the wrapper marker removal is a
single left-to-right global pass that removes exactly the literal lowercase
attribute-free tags of the marker pair. Whenever the adapter's markup (with
its polyfill scripts) decomposes into exact marker tags — nested or
duplicated in any arrangement — interleaved with text runs free of the
opening angle bracket, the final static output is precisely the text runs
(children's own content untouched), and contains no wrapper marker tag. -/
theorem astroComponentRender_strips_markers {π ε : Type}
    (astroHtmlInst : RendererInstance π ε) (hashUnique : String → String)
    (serialize : π → String) (st : AstroState π ε) (comp : ComponentValue)
    (cp : AstroComponentProps) (props : π) (kids : List String)
    (inst : RendererInstance π ε) (ps : List FragPart)
    (hres : (resolveRenderer st comp props (String.intercalate "\n" kids)).outcome =
      ResolveOutcome.found inst)
    (hhyd : cp.hydrate = none)
    (hhtml : appendPolyfills (inst.renderHtml comp props (String.intercalate "\n" kids))
      inst.polyfills = String.mk (fragJoin ps))
    (htext : ∀ t, FragPart.text t ∈ ps → '<' ∉ t) :
    (astroComponentRender astroHtmlInst hashUnique serialize st comp cp props kids).result =
      Except.ok (String.mk (fragText ps)) ∧
    ¬ openTagChars <:+: fragText ps ∧
    ¬ closeTagChars <:+: fragText ps := by
  have hnl := fragText_no_lt ps htext
  refine ⟨?_, ?_, ?_⟩
  · simp only [astroComponentRender, hres]
    simp only [renderWithInstance, hhyd]
    rw [hhtml]
    unfold stripFragment
    rw [show (String.mk (fragJoin ps)).data = fragJoin ps from rfl,
      stripFragmentGo_parts ps (fragJoin ps).length le_rfl htext]
  · intro hin
    exact hnl (hin.subset (by simp [openTagChars]))
  · intro hin
    exact hnl (hin.subset (by simp [closeTagChars]))

/-- C7 amended witness: an adapter emitting an exact marker pair around "hi"
renders, statically, to exactly "hi". -/
theorem astroComponentRender_strips_markers_witness :
    (astroComponentRender fxHtml (fun s => s) (fun _ => "U") fx7st fxComp cp0 () []).result =
      Except.ok (String.mk (fragText fragPs7)) ∧
    ¬ openTagChars <:+: fragText fragPs7 ∧
    ¬ closeTagChars <:+: fragText fragPs7 :=
  astroComponentRender_strips_markers fxHtml (fun s => s) (fun _ => "U") fx7st fxComp
    cp0 () [] fx7Inst fragPs7 rfl rfl rfl
    (by
      intro t ht
      simp [fragPs7] at ht
      subst ht
      decide)

set_option maxRecDepth 16384 in
/-- C9 counterexample: a hydrated render through an adapter with no client
source (`source: null`) succeeds, but its output contains no serialization of
the props (here `42`) anywhere — the callback body only imports the
component URL — refuting the claim that every hydrated render embeds the
serialized props in the callback body. -/
theorem hydrated_props_literal_counterexample :
    (astroComponentRender fx9Html (fun _ => "ID") Nat.repr fx9st fxComp cp9 42 []).result =
      Except.ok fx9Out ∧
    Nat.repr 42 = "42" ∧
    cp9.hydrate = some HydrateMode.load ∧
    ¬ ("42".data <:+: fx9Out.data) :=
  ⟨rfl, rfl, rfl, by decide⟩

/-- C9 amended: a hydrated render returns the root wrapper element whose
`uid` attribute is the astroId (the hash of the rendered markup) enclosing
the markup, a newline, then the inline module script importing the per-mode
setup helper and calling `setup(astroId, asyncCallback)`. The serialized
props appear as a literal in the callback body exactly when the adapter has
a truthy (non-null, non-empty) client `source`; for a source-less adapter
the callback only imports the component URL and embeds no props. -/
theorem astroComponentRender_hydration_output {π ε : Type}
    (astroHtmlInst : RendererInstance π ε) (hashUnique : String → String)
    (serialize : π → String) (st : AstroState π ε) (comp : ComponentValue)
    (cp : AstroComponentProps) (props : π) (kids : List String)
    (inst : RendererInstance π ε) (mode : HydrateMode) (html : String)
    (hres : (resolveRenderer st comp props (String.intercalate "\n" kids)).outcome =
      ResolveOutcome.found inst)
    (hmode : cp.hydrate = some mode)
    (hh : appendPolyfills (inst.renderHtml comp props (String.intercalate "\n" kids))
      inst.polyfills = html) :
    (∀ src ex, inst.source = some src → src ≠ "" → cp.componentExport = some ex →
      (astroComponentRender astroHtmlInst hashUnique serialize st comp cp props kids).result =
        Except.ok ("<astro-root uid=\"" ++ hashUnique html ++ "\">" ++ html ++ "</astro-root>" ++
          "\n" ++
          ("<script type=\"module\">\nimport setup from \x27/_astro_frontend/hydrate/" ++
            HydrateMode.str mode ++ ".js\x27;\nsetup(\"" ++ hashUnique html ++
            "\", async () => \x7b\n  " ++
            ("const [\x7b " ++ ex.value ++ ": Component \x7d, \x7b default: hydrate \x7d] = await Promise.all([import(\"" ++
              jsStr cp.componentUrl ++ "\"), import(\"" ++ src ++
              "\")]);\n  return (el, children) => hydrate(el)(Component, " ++ serialize props ++
              ", children);") ++
            "\n\x7d);\n</script>"))) ∧
    (inst.source = none →
      (astroComponentRender astroHtmlInst hashUnique serialize st comp cp props kids).result =
        Except.ok ("<astro-root uid=\"" ++ hashUnique html ++ "\">" ++ html ++ "</astro-root>" ++
          "\n" ++
          ("<script type=\"module\">\nimport setup from \x27/_astro_frontend/hydrate/" ++
            HydrateMode.str mode ++ ".js\x27;\nsetup(\"" ++ hashUnique html ++
            "\", async () => \x7b\n  " ++
            ("await import(\"" ++ jsStr cp.componentUrl ++ "\");\n  return () => \x7b\x7d;") ++
            "\n\x7d);\n</script>"))) := by
  constructor
  · intro src ex hsrc hsne hex
    have hb : sourceTruthy (some src) = true := by simp [sourceTruthy, hsne]
    simp only [astroComponentRender, hres]
    simp only [renderWithInstance, hmode, hh]
    simp only [generateHydrateScript, hydrationSourceFor, hsrc, hex, hb, jsStr, if_true]
  · intro hsrc
    simp only [astroComponentRender, hres]
    simp only [renderWithInstance, hmode, hh]
    simp only [generateHydrateScript, hydrationSourceFor, hsrc, sourceTruthy, Bool.false_eq_true,
      if_false]

set_option maxRecDepth 16384 in
/-- C9 amended witness: a hydrated render through an adapter with client
source "SRC", export "Comp", URL "u", props `42`, hash "ID" produces exactly
the expected wrapper-plus-script markup with the literal `42` embedded. -/
theorem astroComponentRender_hydration_output_witness :
    (astroComponentRender fx9Html (fun _ => "ID") Nat.repr fx9sst fxComp cp9 42 []).result =
      Except.ok "<astro-root uid=\"ID\">H</astro-root>\n<script type=\"module\">\nimport setup from \x27/_astro_frontend/hydrate/load.js\x27;\nsetup(\"ID\", async () => \x7b\n  const [\x7b Comp: Component \x7d, \x7b default: hydrate \x7d] = await Promise.all([import(\"u\"), import(\"SRC\")]);\n  return (el, children) => hydrate(el)(Component, 42, children);\n\x7d);\n</script>" := by
  have h := (astroComponentRender_hydration_output fx9Html (fun _ => "ID") Nat.repr fx9sst
    fxComp cp9 42 [] fx9sInst HydrateMode.load "H" rfl rfl rfl).1 "SRC" ⟨"Comp", false⟩
    rfl (by decide) rfl
  rw [h]
  simp only [Except.ok.injEq]
  decide
